import Mathlib

/-!
Verification development for the Socratic-Quantum Forge studio simulator
(`src/script.js`).  The per-turn simulation engine is shallowly embedded:

* JS numbers are modelled as exact rationals (`ℚ`); every arithmetic step the
  engine performs (halves, 0.15 thresholds, score weights) is expressed with
  the exact rational constants the source literals denote.
* The external text generator (`queryAgent`, script.js:73-114) and the random
  source (`Math.random`) are modelled as an `Oracle` supplied to each turn:
  one response per call site, keyed by the call's argument, plus the raw
  draws the producer consumes.  A response starting with "Fallback:" plays
  the role of the failure sentinel of `queryAgent`.
* The `lastAgentActivity` strings, canvas rendering and DOM wiring are
  presentation-layer effects (spec §1 treats them as external collaborators);
  they touch no simulation logic and are omitted from the state.
* The `Promise.all` fan-out (script.js:242-252) is modelled twice.
  `advanceWeek` serializes the three agent bodies atomically in creation
  order (inquisitor, producer, marketing); it is used for the per-field
  properties that hold under every event-loop interleaving.
  `advanceWeekDeferred` follows the event loop of the schedules in which
  the producer body never suspends (the bug branch is not taken, so
  script.js:184 never awaits): the inquisitor either finishes at once with
  no eligible quantum, or suspends at its first generation await
  (script.js:159) before pushing anything, so its single ledger push
  (script.js:165) lands after the producer's synchronous segment —
  including any release it fires — and after marketing's guard check,
  before the join resolves.  In both models the marketing-activation flag
  is set between the producer and marketing launches (script.js:247-249).
-/

namespace Forge

/-- Payload of a quantum: `data.name` and/or `data.description`
(script.js:122-128). -/
structure QData where
  name : Option String := none
  description : Option String := none
deriving DecidableEq

/-- A design fact, as pushed by the translator (script.js:131-137). -/
structure Quantum where
  quantumId : String
  quantumType : String
  data : QData
  version : Nat
  status : String
  createdAt : String
  declarationSource : String
deriving DecidableEq

/-- An inquisitor question (script.js:161). -/
structure Question where
  id : String
  text : String
  status : String
  sourceQuantumId : String
deriving DecidableEq

/-- A producer bug report (script.js:187). -/
structure BugReport where
  id : String
  text : String
  week : Nat
  sourceQuestionId : String
deriving DecidableEq

/-- The `gameState` record of `simulationState` (script.js:34-55), minus the
presentation-only `projectName` and `lastAgentActivity` strings. -/
structure GameState where
  currentWeek : Nat
  budget : ℚ
  designCompleteness : ℚ
  buildProgress : ℚ
  bugs : Nat
  marketHype : ℚ
  weeklySpend : ℚ
  marketingActive : Bool
  gameReleased : Bool
  finalScore : ℚ
  commandQueue : List String
deriving DecidableEq

/-- The top-level `simulationState` (script.js:31-59), minus the
presentation-only `agentStatusText`. -/
structure SimState where
  isWaitingForAgents : Bool
  gameState : GameState
  quantumCore : List Quantum
  unansweredQuestions : List Question
  bugReports : List BugReport
deriving DecidableEq

/-- External nondeterminism consumed by one turn: the `queryAgent` responses
(keyed by the argument of the call site that asks for them), the generated
ids, and the producer's two `Math.random` consumptions.  `blamePick` is
reduced mod the open-question count, so every index `Math.floor(r * len)`
can produce is representable. -/
structure Oracle where
  tId : Nat → String
  iResp : Quantum → String
  iId : Quantum → String
  bugDraw : ℚ
  blamePick : Nat
  bugResp : String
  bugId : String

/-- JS `String.prototype.includes`, on char lists (used for the keyword tests
of script.js:122-128). -/
def hasSub (needle : List Char) : List Char → Bool
  | [] => needle.isEmpty
  | c :: cs => needle.isPrefixOf (c :: cs) || hasSub needle cs

/-- JS `String.prototype.startsWith`, on code points. -/
def strStartsWith (s pre : String) : Bool :=
  pre.toList.isPrefixOf s.toList

/-- JS `String.prototype.toLowerCase` (ASCII range, which covers every
string the simulation manipulates). -/
def jsToLower (s : String) : String :=
  String.mk (s.toList.map Char.toLower)

/-- The whitespace class of JS `\s` / `trim`, restricted to the ASCII
whitespace characters. -/
def isJsWsChar (c : Char) : Bool :=
  c == ' ' || c == '\t' || c == '\n' || c == '\r' || c == '\x0b' || c == '\x0c'

/-- JS `String.prototype.trim`, with the modelled whitespace class. -/
def jsTrim (s : String) : String :=
  String.mk (((s.toList.dropWhile isJsWsChar).reverse.dropWhile
    isJsWsChar).reverse)

/-- Keyword table of the translator, in source order (script.js:122-128):
each contained keyword contributes one quantum template. -/
def keywordMatches (lowerInput : String) : List (String × QData) :=
  (if hasSub ("rpg".toList) lowerInput.toList then
    [(("Genre"), { name := some ("Action RPG") })] else []) ++
  (if hasSub ("stealth".toList) lowerInput.toList then
    [(("MechanicPillar"), { name := some ("Stealth") })] else []) ++
  (if hasSub ("cyberpunk".toList) lowerInput.toList then
    [(("Setting"), { name := some ("Cyberpunk Fantasy") })] else []) ++
  (if hasSub ("protagonist".toList) lowerInput.toList then
    [(("Character"), { name := some ("Unit 734") })] else []) ++
  (if hasSub ("ghostwire".toList) lowerInput.toList then
    [(("Ability"), { name := some ("Ghostwire") })] else []) ++
  (if hasSub ("art style".toList) lowerInput.toList then
    [(("ArtStyle"), { name := some ("Dystopian Baroque") })] else []) ++
  (if hasSub ("gameplay loop".toList) lowerInput.toList then
    [(("GameplayLoop"),
      { description := some ("Explore, Contract, Takedown, Upgrade") })] else [])

/-- Decoration of the matched templates into quanta (script.js:131-137):
fresh id, version 1, status Active, creation-week tag, verbatim source. -/
def mkQuanta (o : Oracle) (input : String) (week : Nat)
    (pairs : List (String × QData)) : List Quantum :=
  pairs.enum.map (fun p =>
    { quantumId := o.tId p.1
      quantumType := p.2.1
      data := p.2.2
      version := 1
      status := "Active"
      createdAt := "Week " ++ toString week
      declarationSource := input })

/-- `translatorTurn` (script.js:117-145): push a quantum per matched keyword,
report whether anything was created. -/
def translatorTurn (o : Oracle) (input : String) (s : SimState) :
    SimState × Bool :=
  let newQuanta := keywordMatches (jsToLower input)
  if 0 < newQuanta.length then
    ({ s with quantumCore :=
        s.quantumCore ++ mkQuanta o input s.gameState.currentWeek newQuanta },
     true)
  else (s, false)

/-- The id-character class `[a-z0-9]` of the regex
`/(\/answer\s+)(uq-[a-z0-9]+)/` (script.js:215). -/
def isIdChar (c : Char) : Bool :=
  (decide ('a' ≤ c) && decide (c ≤ 'z')) || (decide ('0' ≤ c) && decide (c ≤ '9'))

/-- Consume an exact literal from the front of a char list. -/
def dropLit : List Char → List Char → Option (List Char)
  | [], cs => some cs
  | _ :: _, [] => none
  | l :: ls, c :: cs => if c = l then dropLit ls cs else none

/-- Try the regex `\/answer\s+(uq-[a-z0-9]+)` anchored at the head of the
list, returning the captured question id.  The greedy `\s+` and `[a-z0-9]+`
need no backtracking here because `u` is not whitespace and the id run is the
final component. -/
def answerIdAt (cs : List Char) : Option String :=
  match dropLit ("/answer".toList) cs with
  | none => none
  | some rest =>
    match rest with
    | [] => none
    | c :: rest2 =>
      if isJsWsChar c then
        match dropLit ("uq-".toList) (rest2.dropWhile isJsWsChar) with
        | none => none
        | some rest3 =>
          let idTail := rest3.takeWhile isIdChar
          if idTail.isEmpty then none
          else some (String.mk (("uq-".toList) ++ idTail))
      else none

/-- First (leftmost) match of the question-id pattern, as `input.match`
returns it (script.js:215). -/
def findAnswerId : List Char → Option String
  | [] => none
  | c :: cs =>
    match answerIdAt (c :: cs) with
    | some qid => some qid
    | none => findAnswerId cs

/-- Mutate the first question carrying the id to status Answered, as
`find(...)` followed by `question.status = "Answered"` does
(script.js:218-220). -/
def setAnswered : List Question → String → List Question
  | [], _ => []
  | q :: qs, qid =>
    if q.id = qid then { q with status := "Answered" } :: qs
    else q :: setAnswered qs qid

/-- `resolveAnswer` (script.js:214-228): extract a question id, flip the
referenced question (if present) to Answered, always run the translator on
the full command, report whether a question was found. -/
def resolveAnswer (o : Oracle) (input : String) (s : SimState) :
    SimState × Bool :=
  match findAnswerId input.toList with
  | some questionId =>
    if (s.unansweredQuestions.find? (fun q => q.id == questionId)).isSome then
      ((translatorTurn o input
          { s with unansweredQuestions :=
              setAnswered s.unansweredQuestions questionId }).1, true)
    else ((translatorTurn o input s).1, false)
  | none => ((translatorTurn o input s).1, false)

/-- Creation-week tag `Week ${currentWeek}` used by the filters of
script.js:148 and script.js:202. -/
def weekTag (s : SimState) : String :=
  "Week " ++ toString s.gameState.currentWeek

/-- The inquisitor's for-loop (script.js:156-163): skip quanta declared by an
answer command; for the rest, request a question from the generator and keep
it only when it is not the fallback sentinel and longer than 10 characters. -/
def inquisitorLoop (o : Oracle) : List Quantum → List Question
  | [] => []
  | q :: qs =>
    if strStartsWith (jsToLower q.declarationSource) ("/answer") then
      inquisitorLoop o qs
    else
      let questionText := o.iResp q
      if strStartsWith questionText ("Fallback:") = false ∧
          10 < questionText.length then
        { id := o.iId q, text := questionText, status := "Open",
          sourceQuantumId := q.quantumId } :: inquisitorLoop o qs
      else inquisitorLoop o qs

/-- `inquisitorTurn` (script.js:147-170): analyze the quanta created this
week and append the accepted questions to the ledger. -/
def inquisitorTurn (o : Oracle) (s : SimState) : SimState :=
  let recentQuanta := s.quantumCore.filter (fun q => q.createdAt == weekTag s)
  if recentQuanta.length = 0 then s
  else
    let newQuestions := inquisitorLoop o recentQuanta
    if 0 < newQuestions.length then
      { s with unansweredQuestions := s.unansweredQuestions ++ newQuestions }
    else s

/-- Count of ledger questions with status Open (script.js:178,257). -/
def openCount (s : SimState) : Nat :=
  (s.unansweredQuestions.filter (fun q => q.status == "Open")).length

/-- Placeholder question; unreachable because the blame lookup only happens
when the open set is non-empty. -/
def defaultQuestion : Question :=
  { id := "", text := "", status := "", sourceQuantumId := "" }

/-- Body of `producerTurn` after its guard (script.js:177-190): spend budget,
advance clamped build progress at a rate slowed by open questions, and draw
for a bug whose report is dropped when the generator fell back. -/
def producerCore (o : Oracle) (s : SimState) : SimState :=
  let gs := s.gameState
  let openQuestions := s.unansweredQuestions.filter (fun q => q.status == "Open")
  let progressThisWeek : ℚ := max (1/2) (5 - (openQuestions.length : ℚ) * (1/2))
  let base : SimState :=
    { s with gameState :=
        { gs with
          budget := gs.budget - gs.weeklySpend
          buildProgress := min 100 (gs.buildProgress + progressThisWeek) } }
  if 0 < openQuestions.length ∧
      o.bugDraw < (openQuestions.length : ℚ) * (3/20) then
    if strStartsWith o.bugResp ("Fallback:") = false then
      let questionToBlame :=
        openQuestions.getD (o.blamePick % openQuestions.length) defaultQuestion
      { base with
        gameState := { base.gameState with bugs := base.gameState.bugs + 1 }
        bugReports := base.bugReports ++
          [{ id := o.bugId, text := o.bugResp, week := gs.currentWeek,
             sourceQuestionId := questionToBlame.id }] }
    else base
  else base

/-- `releaseGame` (script.js:279-287): set the terminal flag and compute the
final score `design*0.4 + hype*0.3 + max(0, 100 - bugs*2)*0.3` from the state
as it stands at that moment. -/
def releaseGame (s : SimState) : SimState :=
  let gs := s.gameState
  let qualityScore : ℚ := max 0 (100 - (gs.bugs : ℚ) * 2)
  { s with gameState :=
      { gs with
        gameReleased := true
        finalScore := gs.designCompleteness * (2/5) + gs.marketHype * (3/10) +
          qualityScore * (3/10) } }

/-- `producerTurn` (script.js:172-195): idle before any fact exists or after
release; otherwise run the body and fire the release procedure when the
clamped progress has reached the cap. -/
def producerTurn (o : Oracle) (s : SimState) : SimState :=
  if s.quantumCore.length = 0 ∨ s.gameState.gameReleased then s
  else
    let s1 := producerCore o s
    if 100 ≤ s1.gameState.buildProgress then releaseGame s1 else s1

/-- `marketingTurn` (script.js:197-212): once active and before release,
raise hype by half the total fact count (clamped at 100) and permanently
raise the weekly burn rate.  The promotional text request only feeds the
activity string, so it leaves the modelled state untouched. -/
def marketingTurn (s : SimState) : SimState :=
  if ¬ s.gameState.marketingActive ∨ s.gameState.gameReleased then s
  else
    let gs := s.gameState
    let hypeThisWeek : ℚ := (s.quantumCore.length : ℚ) / 2
    { s with gameState :=
        { gs with
          marketHype := min 100 (gs.marketHype + hypeThisWeek)
          weeklySpend := gs.weeklySpend + 2000 } }

/-- Steps 1-2 of `advanceWeek` (script.js:233-238): shift the front command
off the queue and dispatch on its prefix; the returned flag is the
`processed` boolean that gates the inquisitor launch. -/
def afterCommand (o : Oracle) (s : SimState) : SimState × Bool :=
  match s.gameState.commandQueue with
  | [] => (s, false)
  | input :: rest =>
    let s0 : SimState :=
      { s with gameState := { s.gameState with commandQueue := rest } }
    if jsTrim input ≠ "" then
      if strStartsWith input ("/declare") then translatorTurn o input s0
      else if strStartsWith input ("/answer") then resolveAnswer o input s0
      else (s0, false)
    else (s0, false)

/-- Command processing followed by the conditional inquisitor launch
(script.js:233-245): the inquisitor body runs only when the command step
reported success. -/
def preProducer (o : Oracle) (s : SimState) : SimState :=
  let step := afterCommand o s
  if step.2 then inquisitorTurn o step.1 else step.1

/-- Command processing followed by the first two agent bodies of the fan-out
(script.js:242-246): the conditional inquisitor, then the producer. -/
def turnMid (o : Oracle) (s : SimState) : SimState :=
  producerTurn o (preProducer o s)

/-- The engine's marketing-activation check (script.js:247-249), performed
between the producer and marketing launches. -/
def marketingGate (s : SimState) : SimState :=
  if 5 < s.gameState.currentWeek then
    { s with gameState := { s.gameState with marketingActive := true } }
  else s

/-- Steps 7-8 of `advanceWeek` (script.js:256-259): advance the week counter
and recompute the derived design-completeness metric. -/
def dcFormula (quanta openQ : Nat) : ℚ :=
  if 0 < quanta + openQ then ((quanta : ℚ) / ((quanta + openQ : Nat) : ℚ)) * 100
  else if 0 < quanta then 100 else 0

/-- End-of-turn bookkeeping (script.js:256-259). -/
def finishTurn (s : SimState) : SimState :=
  { s with gameState :=
      { s.gameState with
        currentWeek := s.gameState.currentWeek + 1
        designCompleteness := dcFormula s.quantumCore.length (openCount s) } }

/-- One turn of the engine, `advanceWeek` (script.js:230-263).  The guard
re-entry flag is set and cleared inside the same call (script.js:240,254),
so its net effect on the state is nil and the turn is modelled atomically. -/
def advanceWeek (o : Oracle) (s : SimState) : SimState :=
  if s.gameState.gameReleased ∨ s.isWaitingForAgents then s
  else finishTurn (marketingTurn (marketingGate (turnMid o s)))

/-- A quantum qualifies for inquisitor analysis when it was created this week
and was not declared by an answer command (script.js:148,157). -/
def inquisitorEligible (s : SimState) (q : Quantum) : Bool :=
  q.createdAt == weekTag s &&
    ! strStartsWith (jsToLower q.declarationSource) ("/answer")

/-- The question the inquisitor keeps for one qualifying quantum, if the
generated text passes the acceptance test (script.js:160-161). -/
def acceptedQuestion (o : Oracle) (q : Quantum) : Option Question :=
  let questionText := o.iResp q
  if strStartsWith questionText ("Fallback:") = false ∧
      10 < questionText.length then
    some { id := o.iId q, text := questionText, status := "Open",
           sourceQuantumId := q.quantumId }
  else none

/-- The producer's weekly progress increment (script.js:179). -/
def progressOf (s : SimState) : ℚ :=
  max (1/2) (5 - (openCount s : ℚ) * (1/2))

/-- Oracle whose generator is offline (every response is the fallback
sentinel) and whose bug draw misses. -/
def oracle0 : Oracle :=
  { tId := fun _ => "q-000000000"
    iResp := fun _ => "Fallback: the agent is offline."
    iId := fun _ => "uq-000000000"
    bugDraw := 1/2
    blamePick := 0
    bugResp := "Fallback: the agent is offline."
    bugId := "bug-000000000" }

/-- Oracle whose bug draw hits and whose bug narrative succeeds. -/
def oracleBug : Oracle :=
  { oracle0 with
    bugDraw := 1/10
    bugResp := "Bug 404: the stealth meter renders upside down." }

/-- A sample quantum already in the core. -/
def quantA : Quantum :=
  { quantumId := "q-abc000001"
    quantumType := "Genre"
    data := { name := some ("Action RPG") }
    version := 1
    status := "Active"
    createdAt := "Week 1"
    declarationSource := "/declare a cyberpunk action rpg"
  }

/-- A still-open sample question. -/
def qOpenA : Question :=
  { id := "uq-abc12", text := "Which engine powers it?", status := "Open",
    sourceQuantumId := "q-abc000001" }

/-- A sample question that has already been answered. -/
def qAnsA : Question :=
  { id := "uq-done1", text := "Is there a world map?", status := "Answered",
    sourceQuantumId := "q-abc000001" }

/-- A plain mid-game state. -/
def gsBase : GameState :=
  { currentWeek := 3, budget := 1000000, designCompleteness := 0,
    buildProgress := 10, bugs := 0, marketHype := 0, weeklySpend := 5000,
    marketingActive := false, gameReleased := false, finalScore := 0,
    commandQueue := [] }

/-- State whose queue answers an open question with keyword-free text. -/
def sC1 : SimState :=
  { isWaitingForAgents := false
    gameState := { gsBase with commandQueue := ["/answer uq-abc12 use unreal please"] }
    quantumCore := [quantA]
    unansweredQuestions := [qOpenA]
    bugReports := [] }

/-- State holding one already-answered question. -/
def sAns : SimState :=
  { isWaitingForAgents := false
    gameState := gsBase
    quantumCore := [quantA]
    unansweredQuestions := [qAnsA]
    bugReports := [] }

/-- State with one quantum and an empty question ledger. -/
def sPlain : SimState :=
  { isWaitingForAgents := false
    gameState := gsBase
    quantumCore := [quantA]
    unansweredQuestions := []
    bugReports := [] }

/-- State with one quantum and one open question. -/
def sOpen : SimState :=
  { isWaitingForAgents := false
    gameState := gsBase
    quantumCore := [quantA]
    unansweredQuestions := [qOpenA]
    bugReports := [] }

/-- State one producer step away from release. -/
def sRel : SimState :=
  { isWaitingForAgents := false
    gameState :=
      { currentWeek := 25, budget := 0, designCompleteness := 50,
        buildProgress := 96, bugs := 3, marketHype := 20, weeklySpend := 5000,
        marketingActive := true, gameReleased := false, finalScore := 0,
        commandQueue := [] }
    quantumCore := [quantA]
    unansweredQuestions := []
    bugReports := [] }

/-- A released terminal state. -/
def sRld : SimState :=
  { sRel with gameState :=
      { sRel.gameState with gameReleased := true, finalScore := 271/5 } }

/-- One turn under the program's actual event-loop order, for the schedules
in which the producer body never suspends (its bug branch, the only await in
script.js:177-194, is not taken).  Execution trace of `advanceWeek`
(script.js:230-263) in that case: the command step runs (233-238); the
inquisitor body is launched first (244) and either returns at once with no
eligible quantum or suspends at its first `queryAgent` await (159) before
mutating anything; the producer body (246) then runs synchronously to
completion, including `releaseGame` when the cap is reached (192-194); the
activation flag is set (247-249) and the marketing body (250) runs its guard
and updates against the post-producer state; only then do the inquisitor's
generation awaits resolve and its accumulated questions are pushed in one
step (165); `Promise.all` resolves and the week increment and
design-completeness recomputation close the turn (256-259). -/
def advanceWeekDeferred (o : Oracle) (s : SimState) : SimState :=
  if s.gameState.gameReleased ∨ s.isWaitingForAgents then s
  else
    let step := afterCommand o s
    let s4 := marketingTurn (marketingGate (producerTurn o step.1))
    finishTurn (if step.2 then inquisitorTurn o s4 else s4)

/-- Oracle whose inquisitor generation succeeds (non-fallback, longer than
10 characters). -/
def oracleC10 : Oracle :=
  { oracle0 with
    iResp := fun _ => "What powers the ghostwire ability in combat?"
    iId := fun _ => "uq-new00001" }

/-- State one producer step from release whose queued declaration creates a
quantum this turn, so the inquisitor is launched in the release turn. -/
def sC10 : SimState :=
  { isWaitingForAgents := false
    gameState :=
      { currentWeek := 25, budget := 0, designCompleteness := 50,
        buildProgress := 96, bugs := 3, marketHype := 20, weeklySpend := 5000,
        marketingActive := true, gameReleased := false, finalScore := 0,
        commandQueue := ["/declare the ghostwire ability"] }
    quantumCore := [quantA]
    unansweredQuestions := []
    bugReports := [] }

/-! ### Helper lemmas about the translator and answer resolution -/

theorem mkQuanta_length (o : Oracle) (input : String) (week : Nat)
    (pairs : List (String × QData)) :
    (mkQuanta o input week pairs).length = pairs.length := by
  simp [mkQuanta]

theorem translator_gameState (o : Oracle) (input : String) (s : SimState) :
    (translatorTurn o input s).1.gameState = s.gameState := by
  by_cases h : 0 < (keywordMatches (jsToLower input)).length <;>
    simp [translatorTurn, h]

theorem translator_questions (o : Oracle) (input : String) (s : SimState) :
    (translatorTurn o input s).1.unansweredQuestions = s.unansweredQuestions := by
  by_cases h : 0 < (keywordMatches (jsToLower input)).length <;>
    simp [translatorTurn, h]

theorem translator_bugReports (o : Oracle) (input : String) (s : SimState) :
    (translatorTurn o input s).1.bugReports = s.bugReports := by
  by_cases h : 0 < (keywordMatches (jsToLower input)).length <;>
    simp [translatorTurn, h]

theorem translator_waiting (o : Oracle) (input : String) (s : SimState) :
    (translatorTurn o input s).1.isWaitingForAgents = s.isWaitingForAgents := by
  by_cases h : 0 < (keywordMatches (jsToLower input)).length <;>
    simp [translatorTurn, h]

theorem translator_core (o : Oracle) (input : String) (s : SimState) :
    (translatorTurn o input s).1.quantumCore =
      s.quantumCore ++
        (if 0 < (keywordMatches (jsToLower input)).length then
          mkQuanta o input s.gameState.currentWeek (keywordMatches (jsToLower input))
        else []) := by
  by_cases h : 0 < (keywordMatches (jsToLower input)).length <;>
    simp [translatorTurn, h]

theorem translator_flag (o : Oracle) (input : String) (s : SimState) :
    (translatorTurn o input s).2 = true ↔
      0 < (keywordMatches (jsToLower input)).length := by
  by_cases h : 0 < (keywordMatches (jsToLower input)).length <;>
    simp [translatorTurn, h]

theorem setAnswered_of_find?_none (l : List Question) (qid : String)
    (h : l.find? (fun q => q.id == qid) = none) :
    setAnswered l qid = l := by
  induction l with
  | nil => rfl
  | cons q qs ih =>
    rw [List.find?_eq_none] at h
    have hq : ¬ q.id = qid := by simpa using h q (by simp)
    have hqs : qs.find? (fun q => q.id == qid) = none := by
      rw [List.find?_eq_none]
      intro x hx
      simpa using h x (by simp [hx])
    simp only [setAnswered, hq, if_false, ih hqs]

theorem setAnswered_of_all_answered (l : List Question) (qid : String)
    (h : ∀ q ∈ l, q.id = qid → q.status = "Answered") :
    setAnswered l qid = l := by
  induction l with
  | nil => rfl
  | cons q qs ih =>
    by_cases hq : q.id = qid
    · have hst : q.status = "Answered" := h q (by simp) hq
      have hqq : ({ q with status := "Answered" } : Question) = q := by
        cases q; simp_all
      simp only [setAnswered]
      rw [if_pos hq, hqq]
    · simp only [setAnswered]
      rw [if_neg hq, ih (fun p hp => h p (by simp [hp]))]

theorem resolve_gameState (o : Oracle) (input : String) (s : SimState) :
    (resolveAnswer o input s).1.gameState = s.gameState := by
  unfold resolveAnswer
  cases findAnswerId input.toList with
  | none => simp [translator_gameState]
  | some qid =>
    by_cases h : (s.unansweredQuestions.find? (fun q => q.id == qid)).isSome <;>
      simp [h, translator_gameState]

theorem resolve_core (o : Oracle) (input : String) (s : SimState) :
    (resolveAnswer o input s).1.quantumCore =
      (translatorTurn o input s).1.quantumCore := by
  unfold resolveAnswer
  cases findAnswerId input.toList with
  | none => simp
  | some qid =>
    by_cases h : (s.unansweredQuestions.find? (fun q => q.id == qid)).isSome <;>
      simp [h, translator_core]

theorem resolve_bugReports (o : Oracle) (input : String) (s : SimState) :
    (resolveAnswer o input s).1.bugReports = s.bugReports := by
  unfold resolveAnswer
  cases findAnswerId input.toList with
  | none => simp [translator_bugReports]
  | some qid =>
    by_cases h : (s.unansweredQuestions.find? (fun q => q.id == qid)).isSome <;>
      simp [h, translator_bugReports]

theorem resolve_waiting (o : Oracle) (input : String) (s : SimState) :
    (resolveAnswer o input s).1.isWaitingForAgents = s.isWaitingForAgents := by
  unfold resolveAnswer
  cases findAnswerId input.toList with
  | none => simp [translator_waiting]
  | some qid =>
    by_cases h : (s.unansweredQuestions.find? (fun q => q.id == qid)).isSome <;>
      simp [h, translator_waiting]

theorem resolve_questions (o : Oracle) (input : String) (s : SimState) :
    (resolveAnswer o input s).1.unansweredQuestions =
      (match findAnswerId input.toList with
       | some qid => setAnswered s.unansweredQuestions qid
       | none => s.unansweredQuestions) := by
  unfold resolveAnswer
  cases findAnswerId input.toList with
  | none => simp [translator_questions]
  | some qid =>
    by_cases h : (s.unansweredQuestions.find? (fun q => q.id == qid)).isSome
    · simp [h, translator_questions]
    · have hn : s.unansweredQuestions.find? (fun q => q.id == qid) = none := by
        cases hh : s.unansweredQuestions.find? (fun q => q.id == qid) <;>
          simp_all
      simp [h, translator_questions, setAnswered_of_find?_none _ _ hn]

theorem resolve_flag (o : Oracle) (input : String) (s : SimState) :
    (resolveAnswer o input s).2 = true ↔
      ∃ qid, findAnswerId input.toList = some qid ∧
        (s.unansweredQuestions.find? (fun q => q.id == qid)).isSome = true := by
  unfold resolveAnswer
  cases h : findAnswerId input.toList with
  | none => simp
  | some qid =>
    dsimp only
    by_cases hf : (s.unansweredQuestions.find? (fun q => q.id == qid)).isSome = true
    · rw [if_pos hf]
      constructor
      · intro _
        exact ⟨qid, rfl, hf⟩
      · intro _
        rfl
    · rw [if_neg hf]
      constructor
      · intro hx
        simp at hx
      · rintro ⟨qid2, hq2, hf2⟩
        injection hq2 with hq2
        subst hq2
        exact absurd hf2 hf

theorem afterCommand_gameState (o : Oracle) (s : SimState) :
    ((afterCommand o s).1).gameState =
      { s.gameState with commandQueue := s.gameState.commandQueue.tail } := by
  unfold afterCommand
  cases h : s.gameState.commandQueue with
  | nil =>
    simp [h]
    rw [← h]
  | cons input rest =>
    by_cases h1 : jsTrim input ≠ ""
    · by_cases h2 : strStartsWith input ("/declare")
      · simp [h, h1, h2, translator_gameState]
      · by_cases h3 : strStartsWith input ("/answer") <;>
          simp [h, h1, h2, h3, resolve_gameState]
    · simp [h, h1]


/-! ### Helper lemmas about the inquisitor -/

theorem filterMap_filter_comm {α β : Type} (p r : α → Bool) (f : α → Option β)
    (l : List α) :
    (l.filter p).filterMap (fun a => if r a then none else f a) =
      (l.filter (fun a => p a && ! r a)).filterMap f := by
  induction l with
  | nil => rfl
  | cons a as ih =>
    cases hp : p a <;> cases hr : r a <;>
      simp [List.filter_cons, hp, hr, List.filterMap_cons, ih]

theorem inquisitorLoop_eq_filterMap (o : Oracle) (l : List Quantum) :
    inquisitorLoop o l =
      l.filterMap (fun q =>
        if strStartsWith (jsToLower q.declarationSource) ("/answer") then none
        else acceptedQuestion o q) := by
  induction l with
  | nil => rfl
  | cons q qs ih =>
    by_cases h1 : strStartsWith (jsToLower q.declarationSource) ("/answer")
    · simp [inquisitorLoop, h1, List.filterMap_cons, ih]
    · by_cases h2 : strStartsWith (o.iResp q) ("Fallback:") = false ∧
        10 < (o.iResp q).length
      · simp [inquisitorLoop, h1, h2, List.filterMap_cons, acceptedQuestion, ih]
      · simp [inquisitorLoop, h1, h2, List.filterMap_cons, acceptedQuestion, ih]

theorem inquisitor_append (o : Oracle) (s : SimState) :
    inquisitorTurn o s =
      { s with unansweredQuestions :=
          (s.unansweredQuestions ++
            inquisitorLoop o
              (s.quantumCore.filter (fun q => q.createdAt == weekTag s))) } := by
  unfold inquisitorTurn
  dsimp only
  by_cases h1 :
      (s.quantumCore.filter (fun q => q.createdAt == weekTag s)).length = 0
  · rw [if_pos h1]
    rw [List.length_eq_zero] at h1
    rw [h1]
    simp only [inquisitorLoop, List.append_nil]
  · rw [if_neg h1]
    by_cases h2 : 0 <
        (inquisitorLoop o
          (s.quantumCore.filter (fun q => q.createdAt == weekTag s))).length
    · rw [if_pos h2]
    · rw [if_neg h2]
      have h3 : inquisitorLoop o
          (s.quantumCore.filter (fun q => q.createdAt == weekTag s)) = [] := by
        rw [← List.length_eq_zero]
        omega
      rw [h3]
      simp only [List.append_nil]

theorem inquisitor_eq (o : Oracle) (s : SimState) :
    inquisitorTurn o s =
      { s with unansweredQuestions :=
          (s.unansweredQuestions ++
            (s.quantumCore.filter (inquisitorEligible s)).filterMap
              (acceptedQuestion o)) } := by
  rw [inquisitor_append, inquisitorLoop_eq_filterMap]
  rw [filterMap_filter_comm (fun q => q.createdAt == weekTag s)
    (fun q => strStartsWith (jsToLower q.declarationSource) ("/answer"))
    (acceptedQuestion o)]
  rfl

theorem inquisitor_gameState (o : Oracle) (s : SimState) :
    (inquisitorTurn o s).gameState = s.gameState := by
  rw [inquisitor_eq]

theorem inquisitor_core (o : Oracle) (s : SimState) :
    (inquisitorTurn o s).quantumCore = s.quantumCore := by
  rw [inquisitor_eq]

theorem inquisitor_bugReports (o : Oracle) (s : SimState) :
    (inquisitorTurn o s).bugReports = s.bugReports := by
  rw [inquisitor_eq]

theorem inquisitor_waiting (o : Oracle) (s : SimState) :
    (inquisitorTurn o s).isWaitingForAgents = s.isWaitingForAgents := by
  rw [inquisitor_eq]

/-! ### Helper lemmas about the producer and the release procedure -/

theorem producerCore_bp (o : Oracle) (s : SimState) :
    (producerCore o s).gameState.buildProgress =
      min 100 (s.gameState.buildProgress + progressOf s) := by
  unfold producerCore progressOf openCount
  by_cases h1 : 0 <
        (List.filter (fun q => q.status == "Open") s.unansweredQuestions).length ∧
      o.bugDraw <
        ((List.filter (fun q => q.status == "Open")
          s.unansweredQuestions).length : ℚ) * (3/20)
  · by_cases h2 : strStartsWith o.bugResp ("Fallback:") = false <;> simp [h1, h2]
  · simp [h1]

theorem producerCore_budget (o : Oracle) (s : SimState) :
    (producerCore o s).gameState.budget =
      s.gameState.budget - s.gameState.weeklySpend := by
  unfold producerCore
  by_cases h1 : 0 <
        (List.filter (fun q => q.status == "Open") s.unansweredQuestions).length ∧
      o.bugDraw <
        ((List.filter (fun q => q.status == "Open")
          s.unansweredQuestions).length : ℚ) * (3/20)
  · by_cases h2 : strStartsWith o.bugResp ("Fallback:") = false <;> simp [h1, h2]
  · simp [h1]

theorem producerCore_bugs (o : Oracle) (s : SimState) :
    (producerCore o s).gameState.bugs =
      (if (0 < openCount s ∧ o.bugDraw < (openCount s : ℚ) * (3/20)) ∧
          strStartsWith o.bugResp ("Fallback:") = false then
        s.gameState.bugs + 1
      else s.gameState.bugs) := by
  unfold producerCore openCount
  by_cases h1 : 0 <
        (List.filter (fun q => q.status == "Open") s.unansweredQuestions).length ∧
      o.bugDraw <
        ((List.filter (fun q => q.status == "Open")
          s.unansweredQuestions).length : ℚ) * (3/20)
  · by_cases h2 : strStartsWith o.bugResp ("Fallback:") = false <;> simp [h1, h2]
  · simp [h1]

theorem producerCore_reports (o : Oracle) (s : SimState) :
    (producerCore o s).bugReports =
      (if (0 < openCount s ∧ o.bugDraw < (openCount s : ℚ) * (3/20)) ∧
          strStartsWith o.bugResp ("Fallback:") = false then
        s.bugReports ++
          [{ id := o.bugId, text := o.bugResp, week := s.gameState.currentWeek,
             sourceQuestionId :=
               (((s.unansweredQuestions.filter
                   (fun q => q.status == "Open")).getD
                 (o.blamePick %
                   (s.unansweredQuestions.filter
                     (fun q => q.status == "Open")).length)
                 defaultQuestion).id) }]
      else s.bugReports) := by
  unfold producerCore openCount
  by_cases h1 : 0 <
        (List.filter (fun q => q.status == "Open") s.unansweredQuestions).length ∧
      o.bugDraw <
        ((List.filter (fun q => q.status == "Open")
          s.unansweredQuestions).length : ℚ) * (3/20)
  · by_cases h2 : strStartsWith o.bugResp ("Fallback:") = false <;> simp [h1, h2]
  · simp [h1]

theorem producerCore_frame (o : Oracle) (s : SimState) :
    (producerCore o s).gameState.currentWeek = s.gameState.currentWeek ∧
    (producerCore o s).gameState.marketHype = s.gameState.marketHype ∧
    (producerCore o s).gameState.designCompleteness =
      s.gameState.designCompleteness ∧
    (producerCore o s).gameState.finalScore = s.gameState.finalScore ∧
    (producerCore o s).gameState.gameReleased = s.gameState.gameReleased ∧
    (producerCore o s).gameState.weeklySpend = s.gameState.weeklySpend ∧
    (producerCore o s).gameState.marketingActive =
      s.gameState.marketingActive ∧
    (producerCore o s).gameState.commandQueue = s.gameState.commandQueue ∧
    (producerCore o s).quantumCore = s.quantumCore ∧
    (producerCore o s).unansweredQuestions = s.unansweredQuestions ∧
    (producerCore o s).isWaitingForAgents = s.isWaitingForAgents := by
  unfold producerCore
  by_cases h1 : 0 <
        (List.filter (fun q => q.status == "Open") s.unansweredQuestions).length ∧
      o.bugDraw <
        ((List.filter (fun q => q.status == "Open")
          s.unansweredQuestions).length : ℚ) * (3/20)
  · by_cases h2 : strStartsWith o.bugResp ("Fallback:") = false <;> simp [h1, h2]
  · simp [h1]

theorem releaseGame_released (s : SimState) :
    (releaseGame s).gameState.gameReleased = true := rfl

theorem releaseGame_finalScore (s : SimState) :
    (releaseGame s).gameState.finalScore =
      s.gameState.designCompleteness * (2/5) +
        s.gameState.marketHype * (3/10) +
        max 0 (100 - (s.gameState.bugs : ℚ) * 2) * (3/10) := rfl

theorem releaseGame_frame (s : SimState) :
    (releaseGame s).gameState.buildProgress = s.gameState.buildProgress ∧
    (releaseGame s).gameState.bugs = s.gameState.bugs ∧
    (releaseGame s).gameState.currentWeek = s.gameState.currentWeek ∧
    (releaseGame s).gameState.marketHype = s.gameState.marketHype ∧
    (releaseGame s).gameState.designCompleteness =
      s.gameState.designCompleteness ∧
    (releaseGame s).gameState.budget = s.gameState.budget ∧
    (releaseGame s).gameState.weeklySpend = s.gameState.weeklySpend ∧
    (releaseGame s).gameState.marketingActive = s.gameState.marketingActive ∧
    (releaseGame s).gameState.commandQueue = s.gameState.commandQueue ∧
    (releaseGame s).quantumCore = s.quantumCore ∧
    (releaseGame s).unansweredQuestions = s.unansweredQuestions ∧
    (releaseGame s).bugReports = s.bugReports ∧
    (releaseGame s).isWaitingForAgents = s.isWaitingForAgents :=
  ⟨rfl, rfl, rfl, rfl, rfl, rfl, rfl, rfl, rfl, rfl, rfl, rfl, rfl⟩

theorem producerTurn_idle (o : Oracle) (s : SimState)
    (h : s.quantumCore.length = 0 ∨ s.gameState.gameReleased = true) :
    producerTurn o s = s := by
  unfold producerTurn
  rcases h with h | h <;> simp [h]

theorem producerTurn_run (o : Oracle) (s : SimState)
    (hq : ¬ s.quantumCore.length = 0) (hr : s.gameState.gameReleased = false) :
    producerTurn o s =
      (if 100 ≤ (producerCore o s).gameState.buildProgress then
        releaseGame (producerCore o s)
      else producerCore o s) := by
  unfold producerTurn
  simp [hq, hr]

/-! ### Helper lemmas about marketing, the gate and turn completion -/

theorem marketing_guard (s : SimState)
    (h : s.gameState.marketingActive = false ∨
      s.gameState.gameReleased = true) :
    marketingTurn s = s := by
  unfold marketingTurn
  rcases h with h | h <;> simp [h]

theorem marketing_run (s : SimState)
    (ha : s.gameState.marketingActive = true)
    (hr : s.gameState.gameReleased = false) :
    marketingTurn s =
      { s with gameState :=
          { s.gameState with
            marketHype := min 100 (s.gameState.marketHype +
              (s.quantumCore.length : ℚ) / 2)
            weeklySpend := s.gameState.weeklySpend + 2000 } } := by
  unfold marketingTurn
  simp [ha, hr]

theorem marketing_frame (s : SimState) :
    (marketingTurn s).gameState.buildProgress =
      s.gameState.buildProgress ∧
    (marketingTurn s).gameState.bugs = s.gameState.bugs ∧
    (marketingTurn s).gameState.currentWeek = s.gameState.currentWeek ∧
    (marketingTurn s).gameState.designCompleteness =
      s.gameState.designCompleteness ∧
    (marketingTurn s).gameState.finalScore = s.gameState.finalScore ∧
    (marketingTurn s).gameState.gameReleased = s.gameState.gameReleased ∧
    (marketingTurn s).gameState.budget = s.gameState.budget ∧
    (marketingTurn s).gameState.marketingActive =
      s.gameState.marketingActive ∧
    (marketingTurn s).gameState.commandQueue = s.gameState.commandQueue ∧
    (marketingTurn s).quantumCore = s.quantumCore ∧
    (marketingTurn s).unansweredQuestions = s.unansweredQuestions ∧
    (marketingTurn s).bugReports = s.bugReports ∧
    (marketingTurn s).isWaitingForAgents = s.isWaitingForAgents := by
  unfold marketingTurn
  split_ifs <;> simp

theorem marketing_hype_mono (s : SimState)
    (h : s.gameState.marketHype ≤ 100) :
    s.gameState.marketHype ≤ (marketingTurn s).gameState.marketHype := by
  unfold marketingTurn
  split_ifs with hg
  · exact le_refl _
  · have hnn : (0 : ℚ) ≤ (s.quantumCore.length : ℚ) / 2 := by positivity
    simp only
    refine le_min h ?_
    linarith

theorem marketingGate_frame (s : SimState) :
    (marketingGate s).gameState.buildProgress = s.gameState.buildProgress ∧
    (marketingGate s).gameState.bugs = s.gameState.bugs ∧
    (marketingGate s).gameState.currentWeek = s.gameState.currentWeek ∧
    (marketingGate s).gameState.designCompleteness =
      s.gameState.designCompleteness ∧
    (marketingGate s).gameState.finalScore = s.gameState.finalScore ∧
    (marketingGate s).gameState.gameReleased = s.gameState.gameReleased ∧
    (marketingGate s).gameState.budget = s.gameState.budget ∧
    (marketingGate s).gameState.marketHype = s.gameState.marketHype ∧
    (marketingGate s).gameState.weeklySpend = s.gameState.weeklySpend ∧
    (marketingGate s).gameState.commandQueue = s.gameState.commandQueue ∧
    (marketingGate s).quantumCore = s.quantumCore ∧
    (marketingGate s).unansweredQuestions = s.unansweredQuestions ∧
    (marketingGate s).bugReports = s.bugReports ∧
    (marketingGate s).isWaitingForAgents = s.isWaitingForAgents := by
  unfold marketingGate
  split_ifs <;> simp

theorem finishTurn_week (s : SimState) :
    (finishTurn s).gameState.currentWeek = s.gameState.currentWeek + 1 := rfl

theorem finishTurn_dc (s : SimState) :
    (finishTurn s).gameState.designCompleteness =
      dcFormula s.quantumCore.length (openCount s) := rfl

theorem finishTurn_frame (s : SimState) :
    (finishTurn s).gameState.buildProgress = s.gameState.buildProgress ∧
    (finishTurn s).gameState.bugs = s.gameState.bugs ∧
    (finishTurn s).gameState.marketHype = s.gameState.marketHype ∧
    (finishTurn s).gameState.finalScore = s.gameState.finalScore ∧
    (finishTurn s).gameState.gameReleased = s.gameState.gameReleased ∧
    (finishTurn s).gameState.budget = s.gameState.budget ∧
    (finishTurn s).gameState.weeklySpend = s.gameState.weeklySpend ∧
    (finishTurn s).gameState.marketingActive = s.gameState.marketingActive ∧
    (finishTurn s).gameState.commandQueue = s.gameState.commandQueue ∧
    (finishTurn s).quantumCore = s.quantumCore ∧
    (finishTurn s).unansweredQuestions = s.unansweredQuestions ∧
    (finishTurn s).bugReports = s.bugReports ∧
    (finishTurn s).isWaitingForAgents = s.isWaitingForAgents :=
  ⟨rfl, rfl, rfl, rfl, rfl, rfl, rfl, rfl, rfl, rfl, rfl, rfl, rfl⟩

theorem advanceWeek_run (o : Oracle) (s : SimState)
    (hr : s.gameState.gameReleased = false)
    (hw : s.isWaitingForAgents = false) :
    advanceWeek o s =
      finishTurn (marketingTurn (marketingGate (turnMid o s))) := by
  unfold advanceWeek
  simp [hr, hw]

theorem advanceWeek_stuck (o : Oracle) (s : SimState)
    (h : s.gameState.gameReleased = true ∨ s.isWaitingForAgents = true) :
    advanceWeek o s = s := by
  unfold advanceWeek
  rcases h with h | h <;> simp [h]

/-! ### Helper lemmas about the combined mid-turn pipeline -/

theorem afterCommand_bugReports (o : Oracle) (s : SimState) :
    (afterCommand o s).1.bugReports = s.bugReports := by
  unfold afterCommand
  cases h : s.gameState.commandQueue with
  | nil => rfl
  | cons input rest =>
    by_cases h1 : jsTrim input ≠ ""
    · by_cases h2 : strStartsWith input ("/declare")
      · simp [h1, h2, translator_bugReports]
      · by_cases h3 : strStartsWith input ("/answer") <;>
          simp [h1, h2, h3, resolve_bugReports]
    · simp [h1]

theorem afterCommand_waiting (o : Oracle) (s : SimState) :
    (afterCommand o s).1.isWaitingForAgents = s.isWaitingForAgents := by
  unfold afterCommand
  cases h : s.gameState.commandQueue with
  | nil => rfl
  | cons input rest =>
    by_cases h1 : jsTrim input ≠ ""
    · by_cases h2 : strStartsWith input ("/declare")
      · simp [h1, h2, translator_waiting]
      · by_cases h3 : strStartsWith input ("/answer") <;>
          simp [h1, h2, h3, resolve_waiting]
    · simp [h1]

theorem preProducer_gameState (o : Oracle) (s : SimState) :
    (preProducer o s).gameState =
      { s.gameState with commandQueue := s.gameState.commandQueue.tail } := by
  unfold preProducer
  by_cases h : (afterCommand o s).2 = true <;>
    simp [h, inquisitor_gameState, afterCommand_gameState]

theorem preProducer_bugReports (o : Oracle) (s : SimState) :
    (preProducer o s).bugReports = s.bugReports := by
  unfold preProducer
  by_cases h : (afterCommand o s).2 = true <;>
    simp [h, inquisitor_bugReports, afterCommand_bugReports]

theorem preProducer_waiting (o : Oracle) (s : SimState) :
    (preProducer o s).isWaitingForAgents = s.isWaitingForAgents := by
  unfold preProducer
  by_cases h : (afterCommand o s).2 = true <;>
    simp [h, inquisitor_waiting, afterCommand_waiting]

theorem producerTurn_week (o : Oracle) (s : SimState) :
    (producerTurn o s).gameState.currentWeek = s.gameState.currentWeek := by
  by_cases hq : s.quantumCore.length = 0
  · rw [producerTurn_idle o s (Or.inl hq)]
  · cases hrel : s.gameState.gameReleased with
    | false =>
      rw [producerTurn_run o s hq hrel]
      split_ifs with h100
      · rw [(releaseGame_frame _).2.2.1, (producerCore_frame o s).1]
      · rw [(producerCore_frame o s).1]
    | true => rw [producerTurn_idle o s (Or.inr hrel)]

theorem producerTurn_hype (o : Oracle) (s : SimState) :
    (producerTurn o s).gameState.marketHype = s.gameState.marketHype := by
  by_cases hq : s.quantumCore.length = 0
  · rw [producerTurn_idle o s (Or.inl hq)]
  · cases hrel : s.gameState.gameReleased with
    | false =>
      rw [producerTurn_run o s hq hrel]
      split_ifs with h100
      · rw [(releaseGame_frame _).2.2.2.1, (producerCore_frame o s).2.1]
      · rw [(producerCore_frame o s).2.1]
    | true => rw [producerTurn_idle o s (Or.inr hrel)]

theorem producerTurn_dc (o : Oracle) (s : SimState) :
    (producerTurn o s).gameState.designCompleteness =
      s.gameState.designCompleteness := by
  by_cases hq : s.quantumCore.length = 0
  · rw [producerTurn_idle o s (Or.inl hq)]
  · cases hrel : s.gameState.gameReleased with
    | false =>
      rw [producerTurn_run o s hq hrel]
      split_ifs with h100
      · rw [(releaseGame_frame _).2.2.2.2.1, (producerCore_frame o s).2.2.1]
      · rw [(producerCore_frame o s).2.2.1]
    | true => rw [producerTurn_idle o s (Or.inr hrel)]

theorem producerTurn_core (o : Oracle) (s : SimState) :
    (producerTurn o s).quantumCore = s.quantumCore := by
  by_cases hq : s.quantumCore.length = 0
  · rw [producerTurn_idle o s (Or.inl hq)]
  · cases hrel : s.gameState.gameReleased with
    | false =>
      rw [producerTurn_run o s hq hrel]
      split_ifs with h100
      · rw [(releaseGame_frame _).2.2.2.2.2.2.2.2.2.1,
          (producerCore_frame o s).2.2.2.2.2.2.2.2.1]
      · rw [(producerCore_frame o s).2.2.2.2.2.2.2.2.1]
    | true => rw [producerTurn_idle o s (Or.inr hrel)]

theorem producerTurn_questions (o : Oracle) (s : SimState) :
    (producerTurn o s).unansweredQuestions = s.unansweredQuestions := by
  by_cases hq : s.quantumCore.length = 0
  · rw [producerTurn_idle o s (Or.inl hq)]
  · cases hrel : s.gameState.gameReleased with
    | false =>
      rw [producerTurn_run o s hq hrel]
      split_ifs with h100
      · rw [(releaseGame_frame _).2.2.2.2.2.2.2.2.2.2.1,
          (producerCore_frame o s).2.2.2.2.2.2.2.2.2.1]
      · rw [(producerCore_frame o s).2.2.2.2.2.2.2.2.2.1]
    | true => rw [producerTurn_idle o s (Or.inr hrel)]

theorem producerTurn_bp_mono (o : Oracle) (s : SimState)
    (hb : s.gameState.buildProgress ≤ 100) :
    s.gameState.buildProgress ≤ (producerTurn o s).gameState.buildProgress := by
  by_cases hq : s.quantumCore.length = 0
  · rw [producerTurn_idle o s (Or.inl hq)]
  · cases hrel : s.gameState.gameReleased with
    | false =>
      rw [producerTurn_run o s hq hrel]
      have hp : (1/2 : ℚ) ≤ progressOf s := le_max_left _ _
      split_ifs with h100
      · rw [(releaseGame_frame _).1, producerCore_bp]
        refine le_min hb ?_
        linarith
      · rw [producerCore_bp]
        refine le_min hb ?_
        linarith
    | true => rw [producerTurn_idle o s (Or.inr hrel)]

theorem producerTurn_bugs_mono (o : Oracle) (s : SimState) :
    s.gameState.bugs ≤ (producerTurn o s).gameState.bugs := by
  by_cases hq : s.quantumCore.length = 0
  · rw [producerTurn_idle o s (Or.inl hq)]
  · cases hrel : s.gameState.gameReleased with
    | false =>
      rw [producerTurn_run o s hq hrel]
      split_ifs with h100
      · rw [(releaseGame_frame _).2.1, producerCore_bugs]
        split_ifs <;> omega
      · rw [producerCore_bugs]
        split_ifs <;> omega
    | true => rw [producerTurn_idle o s (Or.inr hrel)]

/-! ### Claim theorems -/

/-- C1 (counterexample): the claim says the boolean the command step hands
to the engine is true exactly when the step appended at least one quantum.
On the concrete state `sC1`, the queued command answers the open question
`uq-abc12` with keyword-free text: the step reports `true` (so the engine
launches the Inquisitor) yet the quantum core is unchanged. -/
theorem c1_counterexample :
    (afterCommand oracle0 sC1).2 = true ∧
    (afterCommand oracle0 sC1).1.quantumCore = sC1.quantumCore := by
  decide

/-- C1 (amended): the engine launches the Inquisitor iff the command step
returned `true`; for the translator that boolean is true iff at least one
quantum was appended, but for answer resolution it is true iff the command
names a question id present in the ledger — independent of whether the
embedded translator call created quanta. -/
theorem c1_command_flag (o : Oracle) (input : String) (s : SimState) :
    ((translatorTurn o input s).2 = true ↔
      s.quantumCore.length < (translatorTurn o input s).1.quantumCore.length) ∧
    ((resolveAnswer o input s).2 = true ↔
      ∃ qid, findAnswerId input.toList = some qid ∧
        (s.unansweredQuestions.find? (fun q => q.id == qid)).isSome = true) ∧
    turnMid o s =
      producerTurn o
        (if (afterCommand o s).2 then inquisitorTurn o (afterCommand o s).1
         else (afterCommand o s).1) := by
  refine ⟨?_, resolve_flag o input s, rfl⟩
  rw [translator_flag, translator_core]
  by_cases h : 0 < (keywordMatches (jsToLower input)).length
  · rw [if_pos h]
    simp only [List.length_append, mkQuanta_length]
    constructor
    · intro _
      omega
    · intro _
      exact h
  · rw [if_neg h]
    simp only [List.append_nil]
    constructor
    · intro hh
      exact absurd hh h
    · intro hh
      omega

/-- C5 (counterexample): the claim says an `/answer` naming an
already-Answered question reports non-resolution; on `sAns` the referenced
question is already Answered yet the step reports success. -/
theorem c5_counterexample :
    (qAnsA.status = "Answered" ∧ qAnsA ∈ sAns.unansweredQuestions) ∧
    (resolveAnswer oracle0 ("/answer uq-done1 add more lore") sAns).2 =
      true := by
  decide

/-- C5 (amended): answer resolution reports success iff the extracted id
exists in the ledger (regardless of its status); when it exists, the first
question carrying the id is set to Answered; in every case the translator
still runs on the full command text, so the quantum-core effect is exactly
the translator's. -/
theorem c5_answer_resolution (o : Oracle) (input : String) (s : SimState) :
    ((resolveAnswer o input s).2 = true ↔
      ∃ qid, findAnswerId input.toList = some qid ∧
        (s.unansweredQuestions.find? (fun q => q.id == qid)).isSome = true) ∧
    (resolveAnswer o input s).1.unansweredQuestions =
      (match findAnswerId input.toList with
       | some qid => setAnswered s.unansweredQuestions qid
       | none => s.unansweredQuestions) ∧
    (resolveAnswer o input s).1.quantumCore =
      (translatorTurn o input s).1.quantumCore :=
  ⟨resolve_flag o input s, resolve_questions o input s,
    resolve_core o input s⟩

/-- C6: re-answering an already-Answered question id leaves every question
(and in particular that question's status) unchanged, while the translator
still runs over the new command text. -/
theorem c6_idempotent (o : Oracle) (input : String) (s : SimState)
    (qid : String)
    (hfind : findAnswerId input.toList = some qid)
    (hans : ∀ q ∈ s.unansweredQuestions, q.id = qid → q.status = "Answered") :
    (resolveAnswer o input s).1.unansweredQuestions =
      s.unansweredQuestions ∧
    (resolveAnswer o input s).1.quantumCore =
      (translatorTurn o input s).1.quantumCore ∧
    ∀ q ∈ (resolveAnswer o input s).1.unansweredQuestions,
      q.id = qid → q.status = "Answered" := by
  have h1 : (resolveAnswer o input s).1.unansweredQuestions =
      s.unansweredQuestions := by
    rw [resolve_questions, hfind]
    exact setAnswered_of_all_answered _ _ hans
  refine ⟨h1, resolve_core o input s, ?_⟩
  rw [h1]
  exact hans

/-- Witness for C6 at a concrete already-answered ledger. -/
theorem c6_idempotent_witness :
    (findAnswerId (("/answer uq-done1 add more lore").toList) =
        some ("uq-done1") ∧
      ∀ q ∈ sAns.unansweredQuestions,
        q.id = "uq-done1" → q.status = "Answered") ∧
    (resolveAnswer oracle0 ("/answer uq-done1 add more lore")
        sAns).1.unansweredQuestions = sAns.unansweredQuestions :=
  ⟨⟨by decide, by decide⟩,
    (c6_idempotent oracle0 ("/answer uq-done1 add more lore") sAns
      ("uq-done1") (by decide) (by decide)).1⟩

/-- C2: when the producer body drives `buildProgress` to the cap, the release
procedure fires inside that same producer turn: the terminal flag is set and
`finalScore` is computed from the design completeness and hype as they stood
at that moment together with the bug count the producer body just produced;
afterwards a released state absorbs every turn-advance request unchanged, and
neither marketing nor turn completion touches `finalScore`. -/
theorem c2_release_scoring (o o2 : Oracle) (s s2 : SimState)
    (hq : s.quantumCore.length ≠ 0) (hr : s.gameState.gameReleased = false)
    (hb : 100 ≤ (producerCore o s).gameState.buildProgress) :
    (producerTurn o s).gameState.gameReleased = true ∧
    (producerTurn o s).gameState.finalScore =
      s.gameState.designCompleteness * (2/5) +
        s.gameState.marketHype * (3/10) +
        max 0 (100 - ((producerCore o s).gameState.bugs : ℚ) * 2) * (3/10) ∧
    (s2.gameState.gameReleased = true → advanceWeek o2 s2 = s2) ∧
    (marketingTurn s2).gameState.finalScore = s2.gameState.finalScore ∧
    (finishTurn s2).gameState.finalScore = s2.gameState.finalScore := by
  rw [producerTurn_run o s hq hr, if_pos hb]
  refine ⟨releaseGame_released _, ?_, ?_,
    (marketing_frame s2).2.2.2.2.1, (finishTurn_frame s2).2.2.2.1⟩
  · rw [releaseGame_finalScore, (producerCore_frame o s).2.2.1,
      (producerCore_frame o s).2.1]
  · intro h2
    exact advanceWeek_stuck o2 s2 (Or.inl h2)

theorem sRel_bp_cap :
    100 ≤ (producerCore oracle0 sRel).gameState.buildProgress := by
  rw [producerCore_bp]
  norm_num [sRel, progressOf, openCount, min_def, max_def]

/-- Witness for C2: from `sRel` (progress 96, no open questions) one producer
turn reaches the cap and releases. -/
theorem c2_release_scoring_witness :
    (sRel.quantumCore.length ≠ 0 ∧ sRel.gameState.gameReleased = false ∧
      100 ≤ (producerCore oracle0 sRel).gameState.buildProgress) ∧
    (producerTurn oracle0 sRel).gameState.gameReleased = true :=
  ⟨⟨by decide, by decide, sRel_bp_cap⟩,
    (c2_release_scoring oracle0 oracle0 sRel sRld (by decide) (by decide)
      sRel_bp_cap).1⟩

/-- C3: in every producer turn that runs, the progress update is exactly
`min 100 (buildProgress + max(0.5, 5 - openQuestions*0.5))`; with no open
questions the increment is exactly 5 and the bug draw is never evaluated —
bug count and bug ledger are unchanged for every oracle. -/
theorem c3_progress (o : Oracle) (s : SimState)
    (hq : s.quantumCore.length ≠ 0) (hr : s.gameState.gameReleased = false) :
    (producerTurn o s).gameState.buildProgress =
      min 100 (s.gameState.buildProgress +
        max (1/2) (5 - (openCount s : ℚ) * (1/2))) ∧
    (openCount s = 0 →
      (producerTurn o s).gameState.buildProgress =
        min 100 (s.gameState.buildProgress + 5) ∧
      (producerTurn o s).gameState.bugs = s.gameState.bugs ∧
      (producerTurn o s).bugReports = s.bugReports) := by
  have hbp : (producerTurn o s).gameState.buildProgress =
      min 100 (s.gameState.buildProgress +
        max (1/2) (5 - (openCount s : ℚ) * (1/2))) := by
    rw [producerTurn_run o s hq hr]
    split_ifs with h100
    · rw [(releaseGame_frame _).1, producerCore_bp]
      rfl
    · rw [producerCore_bp]
      rfl
  refine ⟨hbp, fun h0 => ⟨?_, ?_, ?_⟩⟩
  · rw [hbp, h0]
    norm_num [max_def]
  · rw [producerTurn_run o s hq hr]
    split_ifs with h100
    · rw [(releaseGame_frame _).2.1, producerCore_bugs]
      simp [h0]
    · rw [producerCore_bugs]
      simp [h0]
  · rw [producerTurn_run o s hq hr]
    split_ifs with h100
    · rw [(releaseGame_frame _).2.2.2.2.2.2.2.2.2.2.2.1, producerCore_reports]
      simp [h0]
    · rw [producerCore_reports]
      simp [h0]

/-- Witness for C3 on a state with one quantum and no open questions. -/
theorem c3_progress_witness :
    (sPlain.quantumCore.length ≠ 0 ∧
      sPlain.gameState.gameReleased = false ∧ openCount sPlain = 0) ∧
    (producerTurn oracle0 sPlain).gameState.buildProgress =
      min 100 (sPlain.gameState.buildProgress +
        max (1/2) (5 - (openCount sPlain : ℚ) * (1/2))) :=
  ⟨⟨by decide, by decide, by decide⟩,
    (c3_progress oracle0 sPlain (by decide) (by decide)).1⟩

/-- C4: across every completed turn (one that passes the released/waiting
guard), `buildProgress`, `marketHype` and `bugs` never decrease, and the week
counter advances by exactly one. -/
theorem c4_monotone (o : Oracle) (s : SimState)
    (hb : s.gameState.buildProgress ≤ 100)
    (hm : s.gameState.marketHype ≤ 100)
    (hr : s.gameState.gameReleased = false)
    (hw : s.isWaitingForAgents = false) :
    s.gameState.buildProgress ≤ (advanceWeek o s).gameState.buildProgress ∧
    s.gameState.marketHype ≤ (advanceWeek o s).gameState.marketHype ∧
    s.gameState.bugs ≤ (advanceWeek o s).gameState.bugs ∧
    (advanceWeek o s).gameState.currentWeek = s.gameState.currentWeek + 1 := by
  rw [advanceWeek_run o s hr hw]
  have hpre := preProducer_gameState o s
  have hbp0 : (preProducer o s).gameState.buildProgress =
      s.gameState.buildProgress := by rw [hpre]
  have hhy0 : (preProducer o s).gameState.marketHype =
      s.gameState.marketHype := by rw [hpre]
  have hbg0 : (preProducer o s).gameState.bugs = s.gameState.bugs := by
    rw [hpre]
  have hwk0 : (preProducer o s).gameState.currentWeek =
      s.gameState.currentWeek := by rw [hpre]
  have h1 : s.gameState.buildProgress ≤
      (turnMid o s).gameState.buildProgress := by
    have h := producerTurn_bp_mono o (preProducer o s) (by rw [hbp0]; exact hb)
    rw [hbp0] at h
    exact h
  have h2 : (turnMid o s).gameState.marketHype = s.gameState.marketHype := by
    show (producerTurn o (preProducer o s)).gameState.marketHype = _
    rw [producerTurn_hype, hhy0]
  have h3 : s.gameState.bugs ≤ (turnMid o s).gameState.bugs := by
    have h := producerTurn_bugs_mono o (preProducer o s)
    rw [hbg0] at h
    exact h
  have h4 : (turnMid o s).gameState.currentWeek =
      s.gameState.currentWeek := by
    show (producerTurn o (preProducer o s)).gameState.currentWeek = _
    rw [producerTurn_week, hwk0]
  refine ⟨?_, ?_, ?_, ?_⟩
  · have e1 : (finishTurn (marketingTurn
        (marketingGate (turnMid o s)))).gameState.buildProgress =
        (turnMid o s).gameState.buildProgress :=
      ((finishTurn_frame _).1).trans
        (((marketing_frame _).1).trans ((marketingGate_frame _).1))
    rw [e1]
    exact h1
  · have e2 : (marketingGate (turnMid o s)).gameState.marketHype =
        (turnMid o s).gameState.marketHype :=
      (marketingGate_frame _).2.2.2.2.2.2.2.1
    have e3 : (finishTurn (marketingTurn
        (marketingGate (turnMid o s)))).gameState.marketHype =
        (marketingTurn (marketingGate (turnMid o s))).gameState.marketHype :=
      (finishTurn_frame _).2.2.1
    have hg100 : (marketingGate (turnMid o s)).gameState.marketHype ≤ 100 := by
      rw [e2, h2]
      exact hm
    have hmono := marketing_hype_mono (marketingGate (turnMid o s)) hg100
    rw [e3]
    calc s.gameState.marketHype = (turnMid o s).gameState.marketHype :=
          h2.symm
      _ = (marketingGate (turnMid o s)).gameState.marketHype := e2.symm
      _ ≤ (marketingTurn
            (marketingGate (turnMid o s))).gameState.marketHype := hmono
  · have e4 : (finishTurn (marketingTurn
        (marketingGate (turnMid o s)))).gameState.bugs =
        (turnMid o s).gameState.bugs :=
      ((finishTurn_frame _).2.1).trans
        (((marketing_frame _).2.1).trans ((marketingGate_frame _).2.1))
    rw [e4]
    exact h3
  · rw [finishTurn_week, (marketing_frame _).2.2.1,
      (marketingGate_frame _).2.2.1, h4]

/-- Witness for C4 on the plain mid-game state. -/
theorem c4_monotone_witness :
    (sPlain.gameState.buildProgress ≤ 100 ∧
      sPlain.gameState.marketHype ≤ 100 ∧
      sPlain.gameState.gameReleased = false ∧
      sPlain.isWaitingForAgents = false) ∧
    (advanceWeek oracle0 sPlain).gameState.currentWeek =
      sPlain.gameState.currentWeek + 1 :=
  ⟨⟨by decide, by decide, by decide, by decide⟩,
    (c4_monotone oracle0 sPlain (by decide) (by decide) (by decide)
      (by decide)).2.2.2⟩

/-- C7: the bug draw exists only for a positive open-question backlog; with a
draw in `[0,1)`, the bug count increments and a report is appended exactly
when the draw falls below `openQuestions * 0.15` and the generated narrative
is not the fallback sentinel; otherwise (in particular on fallback) neither
changes; and with 7 or more open questions the draw always triggers. -/
theorem c7_bug_draw (o : Oracle) (s : SimState)
    (hq : s.quantumCore.length ≠ 0) (hr : s.gameState.gameReleased = false)
    (hd0 : 0 ≤ o.bugDraw) (hd1 : o.bugDraw < 1) :
    (openCount s = 0 →
      (producerTurn o s).gameState.bugs = s.gameState.bugs ∧
      (producerTurn o s).bugReports = s.bugReports) ∧
    (o.bugDraw < (openCount s : ℚ) * (3/20) ∧
        strStartsWith o.bugResp ("Fallback:") = false ∧ 0 < openCount s →
      (producerTurn o s).gameState.bugs = s.gameState.bugs + 1 ∧
      ∃ r, (producerTurn o s).bugReports = s.bugReports ++ [r] ∧
        r.text = o.bugResp ∧ r.week = s.gameState.currentWeek) ∧
    (¬(0 < openCount s ∧ o.bugDraw < (openCount s : ℚ) * (3/20) ∧
        strStartsWith o.bugResp ("Fallback:") = false) →
      (producerTurn o s).gameState.bugs = s.gameState.bugs ∧
      (producerTurn o s).bugReports = s.bugReports) ∧
    (7 ≤ openCount s → o.bugDraw < (openCount s : ℚ) * (3/20)) := by
  have hbugs : (producerTurn o s).gameState.bugs =
      (producerCore o s).gameState.bugs := by
    rw [producerTurn_run o s hq hr]
    split_ifs with h100
    · exact (releaseGame_frame _).2.1
    · rfl
  have hreps : (producerTurn o s).bugReports =
      (producerCore o s).bugReports := by
    rw [producerTurn_run o s hq hr]
    split_ifs with h100
    · exact (releaseGame_frame _).2.2.2.2.2.2.2.2.2.2.2.1
    · rfl
  refine ⟨?_, ?_, ?_, ?_⟩
  · intro h0
    constructor
    · rw [hbugs, producerCore_bugs]
      simp [h0]
    · rw [hreps, producerCore_reports]
      simp [h0]
  · rintro ⟨hlt, hfb, hpos⟩
    constructor
    · rw [hbugs, producerCore_bugs, if_pos ⟨⟨hpos, hlt⟩, hfb⟩]
    · have he : (producerTurn o s).bugReports =
          s.bugReports ++
            [{ id := o.bugId,
               text := o.bugResp,
               week := s.gameState.currentWeek,
               sourceQuestionId :=
                 (((s.unansweredQuestions.filter
                     (fun q => q.status == "Open")).getD
                   (o.blamePick %
                     (s.unansweredQuestions.filter
                       (fun q => q.status == "Open")).length)
                   defaultQuestion).id) }] := by
        rw [hreps, producerCore_reports, if_pos ⟨⟨hpos, hlt⟩, hfb⟩]
      exact ⟨_, he, rfl, rfl⟩
  · intro hneg
    have hcond : ¬((0 < openCount s ∧
        o.bugDraw < (openCount s : ℚ) * (3/20)) ∧
        strStartsWith o.bugResp ("Fallback:") = false) := by tauto
    constructor
    · rw [hbugs, producerCore_bugs, if_neg hcond]
    · rw [hreps, producerCore_reports, if_neg hcond]
  · intro h7
    have hc : (7:ℚ) ≤ (openCount s : ℚ) := by exact_mod_cast h7
    linarith

/-- Witness for C7: one open question and a hitting draw of 1/10. -/
theorem c7_bug_draw_witness :
    (sOpen.quantumCore.length ≠ 0 ∧ sOpen.gameState.gameReleased = false ∧
      0 ≤ oracleBug.bugDraw ∧ oracleBug.bugDraw < 1 ∧
      oracleBug.bugDraw < (openCount sOpen : ℚ) * (3/20) ∧
      strStartsWith oracleBug.bugResp ("Fallback:") = false ∧
      0 < openCount sOpen) ∧
    (producerTurn oracleBug sOpen).gameState.bugs =
      sOpen.gameState.bugs + 1 := by
  have ha : 0 ≤ oracleBug.bugDraw := by norm_num [oracleBug, oracle0]
  have hb2 : oracleBug.bugDraw < 1 := by norm_num [oracleBug, oracle0]
  have hoc : openCount sOpen = 1 := by decide
  have hc : oracleBug.bugDraw < (openCount sOpen : ℚ) * (3/20) := by
    rw [hoc]
    norm_num [oracleBug, oracle0]
  have hd : strStartsWith oracleBug.bugResp ("Fallback:") = false := by decide
  have he : 0 < openCount sOpen := by decide
  exact ⟨⟨by decide, by decide, ha, hb2, hc, hd, he⟩,
    ((c7_bug_draw oracleBug sOpen (by decide) (by decide) ha hb2).2.1
      ⟨hc, hd, he⟩).1⟩

/-- C8: at the end of every completed turn the design-completeness metric
equals `quanta/(quanta+openQuestions)*100` on the end-of-turn counts (100
with quanta but no denominator is unreachable dead code folded into the
formula), and in particular the formula gives 75 at 3 quanta / 1 open
question and 0 at 0 / 0. -/
theorem c8_design_completeness (o : Oracle) (s : SimState)
    (hr : s.gameState.gameReleased = false)
    (hw : s.isWaitingForAgents = false) :
    (advanceWeek o s).gameState.designCompleteness =
      dcFormula (advanceWeek o s).quantumCore.length
        (openCount (advanceWeek o s)) ∧
    dcFormula 3 1 = 75 ∧ dcFormula 0 0 = 0 := by
  refine ⟨?_, ?_, ?_⟩
  · rw [advanceWeek_run o s hr hw]
    rfl
  · unfold dcFormula
    norm_num
  · unfold dcFormula
    norm_num

/-- Witness for C8 on the plain mid-game state. -/
theorem c8_design_completeness_witness :
    (sPlain.gameState.gameReleased = false ∧
      sPlain.isWaitingForAgents = false) ∧
    dcFormula 3 1 = 75 :=
  ⟨⟨by decide, by decide⟩,
    (c8_design_completeness oracle0 sPlain (by decide) (by decide)).2.1⟩

/-- C9: the inquisitor considers exactly the quanta created in the current
week whose declaration source is not an answer command, and the question
ledger is extended by exactly the generated questions that do not start with
the fallback sentinel and are longer than 10 characters; every new ledger
entry is Open, passes that acceptance test, and carries a back-reference to
an eligible source quantum whose generation produced its text. -/
theorem c9_inquisitor (o : Oracle) (s : SimState) :
    (inquisitorTurn o s).unansweredQuestions =
      s.unansweredQuestions ++
        (s.quantumCore.filter (inquisitorEligible s)).filterMap
          (acceptedQuestion o) ∧
    ∀ uq ∈ (inquisitorTurn o s).unansweredQuestions,
      uq ∉ s.unansweredQuestions →
        uq.status = "Open" ∧
        strStartsWith uq.text ("Fallback:") = false ∧
        10 < uq.text.length ∧
        ∃ q ∈ s.quantumCore, inquisitorEligible s q = true ∧
          uq.sourceQuantumId = q.quantumId ∧ uq.text = o.iResp q := by
  have h1 : (inquisitorTurn o s).unansweredQuestions =
      s.unansweredQuestions ++
        (s.quantumCore.filter (inquisitorEligible s)).filterMap
          (acceptedQuestion o) := by
    rw [inquisitor_eq]
  refine ⟨h1, ?_⟩
  intro uq hmem hnot
  rw [h1] at hmem
  rcases List.mem_append.1 hmem with h | h
  · exact absurd h hnot
  · rcases List.mem_filterMap.1 h with ⟨q, hqmem, hacc⟩
    have hqel : inquisitorEligible s q = true := (List.mem_filter.1 hqmem).2
    have hqs : q ∈ s.quantumCore := (List.mem_filter.1 hqmem).1
    unfold acceptedQuestion at hacc
    by_cases hcond : strStartsWith (o.iResp q) ("Fallback:") = false ∧
        10 < (o.iResp q).length
    · rw [if_pos hcond] at hacc
      injection hacc with hacc
      subst hacc
      exact ⟨rfl, hcond.1, hcond.2, q, hqs, hqel, rfl, rfl⟩
    · rw [if_neg hcond] at hacc
      exact absurd hacc (by simp)

/-- Witness instantiating the C1 boolean characterization on a concrete
declare command. -/
theorem c1_command_flag_witness :
    (translatorTurn oracle0 ("/declare a stealth game") sPlain).2 = true ↔
      sPlain.quantumCore.length <
        (translatorTurn oracle0 ("/declare a stealth game")
          sPlain).1.quantumCore.length :=
  (c1_command_flag oracle0 ("/declare a stealth game") sPlain).1

/-- Witness instantiating the C5 contract on a concrete answer command. -/
theorem c5_answer_resolution_witness :
    (resolveAnswer oracle0 ("/answer uq-done1 add more lore")
        sAns).1.quantumCore =
      (translatorTurn oracle0 ("/answer uq-done1 add more lore")
        sAns).1.quantumCore :=
  (c5_answer_resolution oracle0 ("/answer uq-done1 add more lore") sAns).2.2

/-- Witness instantiating the C9 ledger equation on a concrete state. -/
theorem c9_inquisitor_witness :
    (inquisitorTurn oracle0 sPlain).unansweredQuestions =
      sPlain.unansweredQuestions ++
        (sPlain.quantumCore.filter (inquisitorEligible sPlain)).filterMap
          (acceptedQuestion oracle0) :=
  (c9_inquisitor oracle0 sPlain).1


/-! ### Helper lemmas about the deferred (event-loop-faithful) turn order -/

theorem inquisitorEligible_week (s1 s2 : SimState)
    (h : s1.gameState.currentWeek = s2.gameState.currentWeek) :
    inquisitorEligible s1 = inquisitorEligible s2 := by
  funext q
  unfold inquisitorEligible weekTag
  rw [h]

theorem inqIf_gameState (o : Oracle) (b : Bool) (X : SimState) :
    (if b = true then inquisitorTurn o X else X).gameState = X.gameState := by
  cases b <;> simp [inquisitor_gameState]

theorem inqIf_core (o : Oracle) (b : Bool) (X : SimState) :
    (if b = true then inquisitorTurn o X else X).quantumCore =
      X.quantumCore := by
  cases b <;> simp [inquisitor_core]

theorem inqIf_bugReports (o : Oracle) (b : Bool) (X : SimState) :
    (if b = true then inquisitorTurn o X else X).bugReports =
      X.bugReports := by
  cases b <;> simp [inquisitor_bugReports]

theorem advanceWeekDeferred_run (o : Oracle) (s : SimState)
    (hr : s.gameState.gameReleased = false)
    (hw : s.isWaitingForAgents = false) :
    advanceWeekDeferred o s =
      finishTurn
        (if (afterCommand o s).2 = true then
          inquisitorTurn o
            (marketingTurn (marketingGate (producerTurn o (afterCommand o s).1)))
        else
          marketingTurn (marketingGate (producerTurn o (afterCommand o s).1))) := by
  unfold advanceWeekDeferred
  simp [hr, hw]

theorem deferred_questions (o : Oracle) (s : SimState)
    (hr : s.gameState.gameReleased = false)
    (hw : s.isWaitingForAgents = false) :
    (advanceWeekDeferred o s).unansweredQuestions =
      (producerTurn o (afterCommand o s).1).unansweredQuestions ++
        (if (afterCommand o s).2 = true then
          (((producerTurn o (afterCommand o s).1).quantumCore.filter
            (inquisitorEligible s)).filterMap (acceptedQuestion o))
        else []) := by
  rw [advanceWeekDeferred_run o s hr hw]
  rw [(finishTurn_frame _).2.2.2.2.2.2.2.2.2.2.1]
  by_cases h2 : (afterCommand o s).2 = true
  · rw [if_pos h2, if_pos h2, inquisitor_eq]
    dsimp only
    rw [(marketing_frame _).2.2.2.2.2.2.2.2.2.2.1,
      (marketingGate_frame _).2.2.2.2.2.2.2.2.2.2.2.1,
      (marketing_frame _).2.2.2.2.2.2.2.2.2.1,
      (marketingGate_frame _).2.2.2.2.2.2.2.2.2.2.1]
    have hwq : inquisitorEligible (marketingTurn (marketingGate
        (producerTurn o (afterCommand o s).1))) = inquisitorEligible s := by
      apply inquisitorEligible_week
      rw [(marketing_frame _).2.2.1, (marketingGate_frame _).2.2.1,
        producerTurn_week, afterCommand_gameState]
    rw [hwq]
  · rw [if_neg h2, if_neg h2,
      (marketing_frame _).2.2.2.2.2.2.2.2.2.2.1,
      (marketingGate_frame _).2.2.2.2.2.2.2.2.2.2.2.1, List.append_nil]

theorem sC10_cap :
    100 ≤ (producerCore oracleC10
      (afterCommand oracleC10 sC10).1).gameState.buildProgress := by
  have hoc : openCount (afterCommand oracleC10 sC10).1 = 0 := by decide
  have hbp96 : (afterCommand oracleC10 sC10).1.gameState.buildProgress =
      96 := by decide
  rw [producerCore_bp, hbp96]
  unfold progressOf
  rw [hoc]
  norm_num [min_def, max_def]

theorem sC10_released :
    (producerTurn oracleC10
      (afterCommand oracleC10 sC10).1).gameState.gameReleased = true := by
  rw [producerTurn_run oracleC10 ((afterCommand oracleC10 sC10).1)
    (by decide) (by decide), if_pos sC10_cap]
  exact releaseGame_released _

/-- C10 (counterexample): the claim says that in the turn in which release
fires inside the producer, the ledgers do not change in the remainder of the
turn.  On `sC10` the queued declaration creates a quantum, so the inquisitor
is launched; under the program's event-loop order its question push lands
after the producer's synchronous segment — which releases the game this
turn — so the question ledger differs between the moment of release (the
post-producer state) and the end of the turn. -/
theorem c10_counterexample :
    sC10.gameState.gameReleased = false ∧
    (producerTurn oracleC10
      (afterCommand oracleC10 sC10).1).gameState.gameReleased = true ∧
    (advanceWeekDeferred oracleC10 sC10).unansweredQuestions ≠
      (producerTurn oracleC10
        (afterCommand oracleC10 sC10).1).unansweredQuestions := by
  have hmq : (producerTurn oracleC10
      (afterCommand oracleC10 sC10).1).unansweredQuestions = [] := by
    rw [producerTurn_questions]
    decide
  have hstep : (afterCommand oracleC10 sC10).2 = true := by decide
  refine ⟨by decide, sC10_released, ?_⟩
  rw [deferred_questions oracleC10 sC10 (by decide) (by decide), hmq,
    if_pos hstep, producerTurn_core]
  decide

/-- C10 (amended): in a release turn where the producer does not suspend on
a bug narrative (its bug branch is not taken — in particular whenever no
questions are open), the engine afterwards still increments the week counter
and recomputes design completeness from the end-of-turn counts; the final
score was computed from the design completeness as it stood at the start of
the turn (the value derived at the end of the previous turn); final score,
the released flag, the quantum core, the bug ledger, the bug count, build
progress and budget keep their post-producer values — but the question
ledger grows after release by exactly the questions the inquisitor's
deferred push accepts for this turn's eligible quanta (empty when the
command step failed or none qualify). -/
theorem c10_release_deferred (o : Oracle) (s : SimState)
    (hr : s.gameState.gameReleased = false)
    (hw : s.isWaitingForAgents = false)
    (hnb : ¬(0 < openCount (afterCommand o s).1 ∧
      o.bugDraw < (openCount (afterCommand o s).1 : ℚ) * (3/20)))
    (hm : (producerTurn o
      (afterCommand o s).1).gameState.gameReleased = true) :
    (advanceWeekDeferred o s).gameState.currentWeek =
      s.gameState.currentWeek + 1 ∧
    (advanceWeekDeferred o s).gameState.designCompleteness =
      dcFormula (advanceWeekDeferred o s).quantumCore.length
        (openCount (advanceWeekDeferred o s)) ∧
    (advanceWeekDeferred o s).gameState.finalScore =
      (producerTurn o (afterCommand o s).1).gameState.finalScore ∧
    (producerTurn o (afterCommand o s).1).gameState.finalScore =
      s.gameState.designCompleteness * (2/5) +
        (producerTurn o (afterCommand o s).1).gameState.marketHype * (3/10) +
        max 0 (100 -
          ((producerTurn o (afterCommand o s).1).gameState.bugs : ℚ) * 2) *
          (3/10) ∧
    (advanceWeekDeferred o s).gameState.gameReleased = true ∧
    (advanceWeekDeferred o s).quantumCore =
      (producerTurn o (afterCommand o s).1).quantumCore ∧
    (advanceWeekDeferred o s).bugReports =
      (producerTurn o (afterCommand o s).1).bugReports ∧
    (advanceWeekDeferred o s).gameState.bugs =
      (producerTurn o (afterCommand o s).1).gameState.bugs ∧
    (advanceWeekDeferred o s).gameState.buildProgress =
      (producerTurn o (afterCommand o s).1).gameState.buildProgress ∧
    (advanceWeekDeferred o s).gameState.budget =
      (producerTurn o (afterCommand o s).1).gameState.budget ∧
    (advanceWeekDeferred o s).unansweredQuestions =
      (producerTurn o (afterCommand o s).1).unansweredQuestions ++
        (if (afterCommand o s).2 = true then
          (((producerTurn o (afterCommand o s).1).quantumCore.filter
            (inquisitorEligible s)).filterMap (acceptedQuestion o))
        else []) := by
  have hrel2 : (afterCommand o s).1.gameState.gameReleased = false := by
    rw [afterCommand_gameState]
    exact hr
  have hdc0 : (afterCommand o s).1.gameState.designCompleteness =
      s.gameState.designCompleteness := by rw [afterCommand_gameState]
  have hwk0 : (afterCommand o s).1.gameState.currentWeek =
      s.gameState.currentWeek := by rw [afterCommand_gameState]
  have hfs : (producerTurn o (afterCommand o s).1).gameState.finalScore =
      s.gameState.designCompleteness * (2/5) +
        (producerTurn o (afterCommand o s).1).gameState.marketHype * (3/10) +
        max 0 (100 -
          ((producerTurn o (afterCommand o s).1).gameState.bugs : ℚ) * 2) *
          (3/10) := by
    by_cases hq2 : (afterCommand o s).1.quantumCore.length = 0
    · have hid := producerTurn_idle o ((afterCommand o s).1) (Or.inl hq2)
      rw [hid] at hm
      rw [hm] at hrel2
      simp at hrel2
    · have hturn := producerTurn_run o ((afterCommand o s).1) hq2 hrel2
      by_cases h100 : 100 ≤
          (producerCore o (afterCommand o s).1).gameState.buildProgress
      · have hT : producerTurn o (afterCommand o s).1 =
            releaseGame (producerCore o (afterCommand o s).1) := by
          rw [hturn, if_pos h100]
        rw [hT, releaseGame_finalScore, (releaseGame_frame _).2.2.2.1,
          (releaseGame_frame _).2.1, (producerCore_frame o _).2.2.1, hdc0]
      · have hT : producerTurn o (afterCommand o s).1 =
            producerCore o (afterCommand o s).1 := by
          rw [hturn, if_neg h100]
        rw [hT, (producerCore_frame o _).2.2.2.2.1, hrel2] at hm
        simp at hm
  have hled := deferred_questions o s hr hw
  rw [advanceWeekDeferred_run o s hr hw] at hled ⊢
  refine ⟨?_, rfl, ?_, hfs, ?_, ?_, ?_, ?_, ?_, ?_, hled⟩
  · rw [finishTurn_week, inqIf_gameState, (marketing_frame _).2.2.1,
      (marketingGate_frame _).2.2.1, producerTurn_week, hwk0]
  · rw [(finishTurn_frame _).2.2.2.1, inqIf_gameState,
      (marketing_frame _).2.2.2.2.1, (marketingGate_frame _).2.2.2.2.1]
  · rw [(finishTurn_frame _).2.2.2.2.1, inqIf_gameState,
      (marketing_frame _).2.2.2.2.2.1, (marketingGate_frame _).2.2.2.2.2.1,
      hm]
  · rw [(finishTurn_frame _).2.2.2.2.2.2.2.2.2.1, inqIf_core,
      (marketing_frame _).2.2.2.2.2.2.2.2.2.1,
      (marketingGate_frame _).2.2.2.2.2.2.2.2.2.2.1]
  · rw [(finishTurn_frame _).2.2.2.2.2.2.2.2.2.2.2.1, inqIf_bugReports,
      (marketing_frame _).2.2.2.2.2.2.2.2.2.2.2.1,
      (marketingGate_frame _).2.2.2.2.2.2.2.2.2.2.2.2.1]
  · rw [(finishTurn_frame _).2.1, inqIf_gameState, (marketing_frame _).2.1,
      (marketingGate_frame _).2.1]
  · rw [(finishTurn_frame _).1, inqIf_gameState, (marketing_frame _).1,
      (marketingGate_frame _).1]
  · rw [(finishTurn_frame _).2.2.2.2.2.1, inqIf_gameState,
      (marketing_frame _).2.2.2.2.2.2.1,
      (marketingGate_frame _).2.2.2.2.2.2.1]

/-- Witness for the amended C10 on `sC10`: release fires, the producer never
suspends (no open questions), and the week counter still advances. -/
theorem c10_release_deferred_witness :
    (sC10.gameState.gameReleased = false ∧
      sC10.isWaitingForAgents = false ∧
      ¬(0 < openCount (afterCommand oracleC10 sC10).1 ∧
        oracleC10.bugDraw <
          (openCount (afterCommand oracleC10 sC10).1 : ℚ) * (3/20)) ∧
      (producerTurn oracleC10
        (afterCommand oracleC10 sC10).1).gameState.gameReleased = true) ∧
    (advanceWeekDeferred oracleC10 sC10).gameState.currentWeek =
      sC10.gameState.currentWeek + 1 := by
  have hoc : openCount (afterCommand oracleC10 sC10).1 = 0 := by decide
  have hnb : ¬(0 < openCount (afterCommand oracleC10 sC10).1 ∧
      oracleC10.bugDraw <
        (openCount (afterCommand oracleC10 sC10).1 : ℚ) * (3/20)) := by
    rw [hoc]
    simp
  exact ⟨⟨by decide, by decide, hnb, sC10_released⟩,
    (c10_release_deferred oracleC10 sC10 (by decide) (by decide) hnb
      sC10_released).1⟩

end Forge
